import Mathlib

/- Shallow embedding of the IE-driver screenshot capture core:
   src/cpp/iedriver/CommandHandlers/ScreenshotCommandHandler.h and
   src/cpp/iedriver/ScreenshotUtilities.cpp.

   OS-level calls (window geometry queries, resizes, PrintWindow paints, the
   base64/PNG encoder) are modelled by explicit state passing on a window-state
   record plus an environment record of oracle values describing what the OS
   and the document report during one run.  Machine integers are modelled as
   unbounded Int: all geometry handled by this code is far below 2^31, and no
   claim is about integer overflow. -/

namespace webdriver

/-- GDI+ limit after which it may report a generic error for some image types
(local constant SIZE_LIMIT in CaptureBrowser). -/
def SIZE_LIMIT : Int := 65534

/-- The WD_SUCCESS status code tested by ExecuteInternal. -/
def WD_SUCCESS : Int := 0

/-- A 32-bits-per-pixel in-memory bitmap (ATL CImage): a width, a height, and
the INT32 pixel value at column x of row y.  Row-stride arithmetic of the C++
code is abstracted into direct (x, y) indexing. -/
structure Image where
  width : Nat
  height : Nat
  pixel : Nat → Nat → Int

/-- Model of IsImageSameColour (ScreenshotUtilities.cpp, lines 66-86): clips the
requested check size to the image dimensions, reads the first pixel at (0, 0),
and returns true exactly when every pixel of the clipped region equals it.  The
32-bpp precondition check is omitted: every Image here is 32 bpp by
construction. -/
def IsImageSameColour (image : Image) (check_width check_height : Int) : Bool :=
  let width := min check_width (image.width : Int)
  let height := min check_height (image.height : Int)
  let first_pixel := image.pixel 0 0
  decide (∀ y, y < height.toNat → ∀ x, x < width.toNat → image.pixel x y = first_pixel)

/-- The comparison region of IsImageSameColour, as a proposition: every pixel of
the check rectangle, clipped to the image dimensions, equals the first pixel. -/
def UniformInRegion (image : Image) (check_width check_height : Int) : Prop :=
  ∀ y, y < (min check_height (image.height : Int)).toNat →
    ∀ x, x < (min check_width (image.width : Int)).toNat →
      image.pixel x y = image.pixel 0 0

/-- Oracle for the OS-dependent outcomes seen by CaptureView: whether the
CImage::Create buffer allocation succeeds, the contents of the freshly created
buffer, and, per PrintWindow attempt i (i = 1, 2, 3), whether the paint call
succeeds and what it paints into the buffer when it does. -/
structure PaintEnv where
  createOk : Bool
  freshBuffer : Image
  printSuccess : Nat → Bool
  painted : Nat → Image

/-- The try loop of CaptureView (`for (int i = 1; i <= 3; i++)`), with the
remaining iteration count as structural fuel.  A failed PrintWindow leaves the
buffer unchanged and retries; a successful paint that the uniform-colour check
flags retries with the (overwritten) buffer; a successful non-uniform paint at
attempt i is accepted as (buffer, i).  When the fuel runs out the buffer as
last painted is returned with the index of the last attempt made.  The
::UpdateWindow repaint pump between attempts has no modelled effect: the
per-attempt oracles already account for it. -/
def captureViewLoop (env : PaintEnv) (check_width check_height : Int) :
    Nat → Nat → Image → Image × Nat
  | i, 0, buf => (buf, i - 1)
  | i, fuel + 1, buf =>
    if env.printSuccess i = false then
      captureViewLoop env check_width check_height (i + 1) fuel buf
    else
      let buf2 := env.painted i
      if IsImageSameColour buf2 check_width check_height then
        captureViewLoop env check_width check_height (i + 1) fuel buf2
      else (buf2, i)

/-- Model of CaptureView (ScreenshotCommandHandler.h, lines 272-307): if the
initial 32-bit bitmap allocation fails the result is none (the C++ NULL),
otherwise the 3-attempt paint loop runs and its resulting buffer is returned.
The second component counts the PrintWindow attempts that were made.  The
width/height arguments size the created buffer; the loop's behaviour depends
only on the check size and the paint oracles. -/
def CaptureView (env : PaintEnv) (width height check_width check_height : Int) :
    Option Image × Nat :=
  if env.createOk = false then (none, 0)
  else
    let r := captureViewLoop env check_width check_height 1 3 env.freshBuffer
    (some r.1, r.2)

/-- The buffer contents after all three paint attempts have run: each successful
PrintWindow overwrites the buffer, a failed one leaves it unchanged. -/
def lastPaintedBuffer (env : PaintEnv) : Image :=
  let b1 := if env.printSuccess 1 then env.painted 1 else env.freshBuffer
  let b2 := if env.printSuccess 2 then env.painted 2 else b1
  if env.printSuccess 3 then env.painted 3 else b2

/-- Attempt i of the paint loop is accepted when PrintWindow succeeds and the
sampled region of the painted buffer is not uniform. -/
def goodAttempt (env : PaintEnv) (check_width check_height : Int) (i : Nat) : Prop :=
  env.printSuccess i = true ∧ IsImageSameColour (env.painted i) check_width check_height = false

/-- The observable state of the top-level browser window: its outer size
(GetWindowRect) and its maximized flag (::IsZoomed). -/
structure WinState where
  width : Int
  height : Int
  maximized : Bool
deriving DecidableEq

/-- Model of SetWindowSize (ScreenshotUtilities.cpp, lines 43-59) as a state
transition: the OS applies the requested outer size.  The C++ function also
re-queries and reports verification failure as a bool which CaptureBrowser
ignores; no claim depends on a resize being silently refused, so the request is
modelled as taking effect. -/
def SetWindowSize (width height : Int) (s : WinState) : WinState :=
  { s with width := width, height := height }

/-- Environment of one CaptureBrowser invocation: success flags for the
fallible accessors that guard the body, the geometry reported by the OS and the
document, the client sizes re-sampled after a resize (per retry index 0 and 1;
document3->recalc has no modelled effect beyond what the index-1 oracle
reports), the outer size a maximized window takes when demaximized
(SW_SHOWNOACTIVATE) and when re-maximized (SW_MAXIMIZE), and the paint oracle
for CaptureView. -/
structure CEnv where
  handlesOk : Bool
  documentOk : Bool
  canvasOk : Bool
  windowSizeOk : Bool
  viewSizeOk : Bool
  viewWidth : Int
  viewHeight : Int
  clientWidth : Int
  scrollWidth : Int
  clientHeight : Int
  scrollHeight : Int
  resampleClientWidth : Nat → Int
  resampleClientHeight : Nat → Int
  restoredSize : Int × Int
  maximizedSize : Int × Int
  paint : PaintEnv

/-- Model of ::ShowWindow(handle, SW_SHOWNOACTIVATE) on a maximized window: the
window leaves the maximized state and takes its restored outer size. -/
def showNoActivate (env : CEnv) (_s : WinState) : WinState :=
  { width := env.restoredSize.1, height := env.restoredSize.2, maximized := false }

/-- Model of ::ShowWindow(handle, SW_MAXIMIZE): the window re-enters the
maximized state and takes the maximized outer size. -/
def showMaximize (env : CEnv) (_s : WinState) : WinState :=
  { width := env.maximizedSize.1, height := env.maximizedSize.2, maximized := true }

/-- scrollbarWidth / scrollbarHeight computation of CaptureBrowser:
max(0, view dimension - client dimension). -/
def scrollbarDim (view client : Int) : Int := max 0 (view - client)

/-- The naturally computed target view dimension of CaptureBrowser:
max(view dimension, scroll dimension + scrollbar dimension). -/
def naturalTargetView (view scroll scrollbar : Int) : Int := max view (scroll + scrollbar)

/-- The SIZE_LIMIT truncation applied inside the grow branches of
CaptureBrowser. -/
def clampLimit (t : Int) : Int := if t > SIZE_LIMIT then SIZE_LIMIT else t

/-- Final value of the targetViewWidth local of CaptureBrowser (lines 155-160):
the natural value, truncated to SIZE_LIMIT only when the grow branch
(natural > viewWidth) is entered. -/
def targetViewWidthFinal (viewWidth scrollWidth clientWidth : Int) : Int :=
  let sbw := scrollbarDim viewWidth clientWidth
  let t0 := naturalTargetView viewWidth scrollWidth sbw
  if t0 > viewWidth then clampLimit t0 else t0

/-- Final value of the targetViewHeight local of CaptureBrowser (lines
186-203): the natural value; inside the grow branch it is truncated to
SIZE_LIMIT and then reduced by 2 when a vertical scrollbar is present
(scrollbarWidth > 0, computed in the width phase). -/
def targetViewHeightFinal (viewHeight scrollHeight clientHeight scrollbarWidth : Int) : Int :=
  let sbh := scrollbarDim viewHeight clientHeight
  let t0 := naturalTargetView viewHeight scrollHeight sbh
  if t0 > viewHeight then
    (if scrollbarWidth > 0 then clampLimit t0 - 2 else clampLimit t0)
  else t0

/-- Observable outcome of one CaptureBrowser run: the HRESULT (ok = S_OK), the
final window state, which axes were resized, whether a demaximize happened, the
SetWindowSize calls issued in order, whether the restore step ran, the computed
target view sizes, the re-sampled client size before the defensive floor, the
four arguments passed to CaptureView, the captured image and the number of
paint attempts. -/
structure CRun where
  ok : Bool
  state : WinState
  resizedWidth : Bool
  resizedHeight : Bool
  demaximized : Bool
  setSizeCalls : List (Int × Int)
  restored : Bool
  targetViewWidth : Int
  targetViewHeight : Int
  clientBeforeFloor : Int × Int
  captureArgs : Int × Int × Int × Int
  image : Option Image
  attempts : Nat

/-- Outcome of the early E_FAIL returns of CaptureBrowser (unreachable handles,
document, canvas or geometry): nothing has been touched yet. -/
def failRun (s : WinState) : CRun :=
  { ok := false
    state := s
    resizedWidth := false
    resizedHeight := false
    demaximized := false
    setSizeCalls := []
    restored := false
    targetViewWidth := 0
    targetViewHeight := 0
    clientBeforeFloor := (0, 0)
    captureArgs := (0, 0, 0, 0)
    image := none
    attempts := 0 }

/-- Body of CaptureBrowser (ScreenshotCommandHandler.h, lines 116-264) after
the fallible accessors have succeeded: width phase (demaximize if needed, grow
width), height phase (demaximize if not already done, apply the scrollbar
compensation, grow height), client-size re-sampling with one retry, the
defensive floor substituting the target view size for a degenerate client size,
the CaptureView call, and the unconditional restore step once any resize
occurred. -/
def CaptureBrowserCore (env : CEnv) (s : WinState) : CRun :=
  let windowWidth := s.width
  let windowHeight := s.height
  let viewWidth := env.viewWidth
  let viewHeight := env.viewHeight
  let is_maximized := s.maximized
  let clientWidth := env.clientWidth
  let scrollWidth := env.scrollWidth
  let scrollbarWidth := scrollbarDim viewWidth clientWidth
  let growWidth : Bool := decide (naturalTargetView viewWidth scrollWidth scrollbarWidth > viewWidth)
  let targetViewWidth := targetViewWidthFinal viewWidth scrollWidth clientWidth
  let targetWindowWidth := if growWidth then windowWidth + (targetViewWidth - viewWidth) else windowWidth
  let s1 := if growWidth then
      SetWindowSize targetWindowWidth windowHeight (if is_maximized then showNoActivate env s else s)
    else s
  let is_resized_width := growWidth
  let clientHeight := env.clientHeight
  let scrollHeight := env.scrollHeight
  let scrollbarHeight := scrollbarDim viewHeight clientHeight
  let growHeight : Bool := decide (naturalTargetView viewHeight scrollHeight scrollbarHeight > viewHeight)
  let targetViewHeight := targetViewHeightFinal viewHeight scrollHeight clientHeight scrollbarWidth
  let targetWindowHeight := if growHeight then windowHeight + (targetViewHeight - viewHeight) else windowHeight
  let s2 := if growHeight then
      SetWindowSize targetWindowWidth targetWindowHeight
        (if is_maximized && !is_resized_width then showNoActivate env s1 else s1)
    else s1
  let is_resized_height := growHeight
  let resampleOk : Bool :=
    (!is_resized_width || decide (env.resampleClientWidth 0 ≠ clientWidth)) &&
    (!is_resized_height || decide (env.resampleClientHeight 0 ≠ clientHeight))
  let targetClientWidth :=
    if is_resized_width || is_resized_height then
      (if resampleOk then env.resampleClientWidth 0 else env.resampleClientWidth 1)
    else clientWidth
  let targetClientHeight :=
    if is_resized_width || is_resized_height then
      (if resampleOk then env.resampleClientHeight 0 else env.resampleClientHeight 1)
    else clientHeight
  let finalClientWidth :=
    if targetClientWidth < 1 ∨ targetClientHeight < 1 then targetViewWidth else targetClientWidth
  let finalClientHeight :=
    if targetClientWidth < 1 ∨ targetClientHeight < 1 then targetViewHeight else targetClientHeight
  let captured := CaptureView env.paint finalClientWidth finalClientHeight
      (clientWidth - 17) (clientHeight - 17)
  let s3 := if is_resized_width || is_resized_height then
      (if is_maximized then showMaximize env s2 else SetWindowSize windowWidth windowHeight s2)
    else s2
  { ok := captured.1.isSome
    state := s3
    resizedWidth := is_resized_width
    resizedHeight := is_resized_height
    demaximized := is_maximized && (is_resized_width || is_resized_height)
    setSizeCalls :=
      (if growWidth then [(targetWindowWidth, windowHeight)] else []) ++
      (if growHeight then [(targetWindowWidth, targetWindowHeight)] else []) ++
      (if (is_resized_width || is_resized_height) && !is_maximized then [(windowWidth, windowHeight)] else [])
    restored := is_resized_width || is_resized_height
    targetViewWidth := targetViewWidth
    targetViewHeight := targetViewHeight
    clientBeforeFloor := (targetClientWidth, targetClientHeight)
    captureArgs := (finalClientWidth, finalClientHeight, clientWidth - 17, clientHeight - 17)
    image := captured.1
    attempts := captured.2 }

/-- Model of CaptureBrowser (ScreenshotCommandHandler.h, lines 94-265): the
early E_FAIL returns for unreachable window handles, document, canvas and
geometry queries, then the capture body. -/
def CaptureBrowser (env : CEnv) (s : WinState) : CRun :=
  if !env.handlesOk then failRun s
  else if !env.documentOk then failRun s
  else if !env.canvasOk then failRun s
  else if !env.windowSizeOk then failRun s
  else if !env.viewSizeOk then failRun s
  else CaptureBrowserCore env s

/-- The response object written by ExecuteInternal: SetSuccessResponse or
SetErrorResponse. -/
inductive Response where
  | success : String → Response
  | error : Int → String → Response
deriving DecidableEq

/-- Environment of one ExecuteInternal invocation: the GetCurrentBrowser status
code, the CaptureBrowser environment seen by the i-th outer attempt, and the
ConvImageToPngBase64string oracle (whether PNG serialization plus base64
encoding succeeds, and the base64 text it produces when it does). -/
structure ExecEnv where
  browserStatus : Int
  cenv : Nat → CEnv
  encodeOk : Bool
  encoded : String

/-- Model of ExecuteInternal (ScreenshotCommandHandler.h, lines 40-82): error
response when no current browser is obtained; otherwise the outer capture loop
with tries = 2 (unrolled), degrading to a successful empty response when both
attempts fail or when encoding fails, and returning the base64 text on
success. -/
def ExecuteInternal (env : ExecEnv) (s : WinState) : Response × WinState :=
  if env.browserStatus ≠ WD_SUCCESS then
    (Response.error env.browserStatus "Unable to get browser", s)
  else
    let r1 := CaptureBrowser (env.cenv 1) s
    if r1.ok then
      (if env.encodeOk then Response.success env.encoded else Response.success "", r1.state)
    else
      let r2 := CaptureBrowser (env.cenv 2) r1.state
      if r2.ok then
        (if env.encodeOk then Response.success env.encoded else Response.success "", r2.state)
      else (Response.success "", r2.state)

/- Concrete inputs used by witnesses and counterexamples. -/

/-- A 2 x 2 bitmap whose pixels all hold the same value. -/
def imgUniform : Image := { width := 2, height := 2, pixel := fun _ _ => 0 }

/-- A 2 x 2 bitmap whose first column is 0 and second column is 1: any clipped
check region at least 2 pixels wide is not uniform. -/
def imgTwoTone : Image := { width := 2, height := 2, pixel := fun x _ => if x = 0 then 0 else 1 }

/-- Paint oracle in which allocation succeeds and every PrintWindow attempt
succeeds and paints the two-tone bitmap. -/
def paintAlwaysGood : PaintEnv :=
  { createOk := true
    freshBuffer := imgUniform
    printSuccess := fun _ => true
    painted := fun _ => imgTwoTone }

/-- The window of the spec's worked scenario: outer 1000 x 700, not maximized. -/
def s7 : WinState := { width := 1000, height := 700, maximized := false }

/-- Geometry of the spec's worked scenario: viewport 984 x 663, client
984 x 646, scroll 984 x 900; the client height re-samples to 900 after the
height resize. -/
def env7 : CEnv :=
  { handlesOk := true
    documentOk := true
    canvasOk := true
    windowSizeOk := true
    viewSizeOk := true
    viewWidth := 984
    viewHeight := 663
    clientWidth := 984
    scrollWidth := 984
    clientHeight := 646
    scrollHeight := 900
    resampleClientWidth := fun _ => 984
    resampleClientHeight := fun _ => 900
    restoredSize := (1000, 700)
    maximizedSize := (1920, 1080)
    paint := paintAlwaysGood }

/-- Geometry whose viewport width already exceeds SIZE_LIMIT while no growth is
needed: the computed target view width is 70000 and is not truncated. -/
def env4 : CEnv :=
  { env7 with
    viewWidth := 70000
    viewHeight := 500
    clientWidth := 70000
    scrollWidth := 60000
    clientHeight := 500
    scrollHeight := 300
    resampleClientWidth := fun _ => 70000
    resampleClientHeight := fun _ => 500 }

/-- Geometry with a vertical scrollbar present (scrollbarWidth = 17) but no
height growth needed: the 2-pixel compensation is not applied. -/
def env5 : CEnv :=
  { env7 with
    viewWidth := 100
    viewHeight := 500
    clientWidth := 83
    scrollWidth := 50
    clientHeight := 500
    scrollHeight := 300
    resampleClientWidth := fun _ => 83
    resampleClientHeight := fun _ => 500 }

/-- Geometry with scroll size at most the viewport size on both axes, yet a
vertical scrollbar (scrollbarWidth = 17) forces a width resize:
scrollWidth + scrollbarWidth = 117 > 100 = viewWidth. -/
def env6 : CEnv :=
  { env7 with
    viewWidth := 100
    viewHeight := 100
    clientWidth := 83
    scrollWidth := 100
    clientHeight := 100
    scrollHeight := 50
    resampleClientWidth := fun _ => 100
    resampleClientHeight := fun _ => 100 }

/-- Geometry with scroll size plus scrollbar size at most the viewport size on
both axes: the amended no-op condition holds. -/
def env6b : CEnv :=
  { env7 with
    viewWidth := 100
    viewHeight := 100
    clientWidth := 83
    scrollWidth := 83
    clientHeight := 100
    scrollHeight := 80
    resampleClientWidth := fun _ => 83
    resampleClientHeight := fun _ => 100 }

/-- Geometry with a degenerate (zero-width) client area and no resize: the
defensive floor substitutes the target view size. -/
def env8 : CEnv :=
  { env7 with
    viewWidth := 100
    viewHeight := 100
    clientWidth := 0
    scrollWidth := 0
    clientHeight := 50
    scrollHeight := 0
    resampleClientWidth := fun _ => 0
    resampleClientHeight := fun _ => 50 }

/-- Geometry whose pre-resize client width is 10 (at most 17), so the uniform
check width passed to CaptureView is 10 - 17 < 0 and every paint attempt is
classified uniform. -/
def env10 : CEnv :=
  { env7 with
    viewWidth := 100
    viewHeight := 100
    clientWidth := 10
    scrollWidth := 5
    clientHeight := 100
    scrollHeight := 50
    resampleClientWidth := fun _ => 10
    resampleClientHeight := fun _ => 100 }

/-- A CaptureBrowser environment whose window handles are unreachable: the
attempt fails before touching anything. -/
def cenvFail : CEnv := { env7 with handlesOk := false }

/-- An ExecuteInternal environment in which the browser is obtained but both
outer capture attempts fail. -/
def execEnvBothFail : ExecEnv :=
  { browserStatus := 0
    cenv := fun _ => cenvFail
    encodeOk := true
    encoded := "abc" }

/- Helper lemmas. -/

/-- Unfolding the paint loop at zero fuel. -/
lemma captureViewLoop_zero (env : PaintEnv) (cw ch : Int) (i : Nat) (buf : Image) :
    captureViewLoop env cw ch i 0 buf = (buf, i - 1) := rfl

/-- Unfolding one iteration of the paint loop. -/
lemma captureViewLoop_succ (env : PaintEnv) (cw ch : Int) (i fuel : Nat) (buf : Image) :
    captureViewLoop env cw ch i (fuel + 1) buf =
      if env.printSuccess i = false then
        captureViewLoop env cw ch (i + 1) fuel buf
      else
        if IsImageSameColour (env.painted i) cw ch then
          captureViewLoop env cw ch (i + 1) fuel (env.painted i)
        else (env.painted i, i) := rfl

/-- The attempt counter returned by the paint loop is bounded by the attempt
index plus the remaining fuel. -/
lemma captureViewLoop_snd_le (env : PaintEnv) (cw ch : Int) :
    ∀ fuel i buf, (captureViewLoop env cw ch i fuel buf).2 ≤ i + fuel - 1
  | 0, i, buf => by simp [captureViewLoop_zero]
  | fuel + 1, i, buf => by
    rw [captureViewLoop_succ]
    by_cases hp : env.printSuccess i = false
    · rw [if_pos hp]
      have h := captureViewLoop_snd_le env cw ch fuel (i + 1) buf
      omega
    · rw [if_neg hp]
      by_cases hs : IsImageSameColour (env.painted i) cw ch
      · rw [if_pos hs]
        have h := captureViewLoop_snd_le env cw ch fuel (i + 1) (env.painted i)
        omega
      · rw [if_neg hs]
        simp

/-- CaptureBrowser is the capture body guarded by the five accessor checks. -/
lemma CaptureBrowser_cases (env : CEnv) (s : WinState) :
    CaptureBrowser env s =
      if env.handlesOk && env.documentOk && env.canvasOk && env.windowSizeOk && env.viewSizeOk
      then CaptureBrowserCore env s else failRun s := by
  obtain ⟨f1, f2, f3, f4, f5, _, _, _, _, _, _, _, _, _, _, _⟩ := env
  cases f1 <;> cases f2 <;> cases f3 <;> cases f4 <;> cases f5 <;> rfl

/-- C7 counterexample: on the worked scenario (window 1000 x 700, viewport
984 x 663, client 984 x 646, scroll 984 x 900) the computed target view height
is 917, not the 915 the claim states: clientWidth equals viewWidth, so
scrollbarWidth = 0 and the 2-pixel compensation is not applied. -/
theorem c7_counterexample :
    (CaptureBrowser env7 s7).targetViewHeight = 917 ∧
    (CaptureBrowser env7 s7).targetViewHeight ≠ 915 := by decide

/-- C7 (amended): on the worked scenario the resolver computes
scrollbar-height = 17 and target view height = max(663, 900 + 17) = 917 with no
2-pixel subtraction (scrollbar-width = 984 - 984 = 0), grows the window in
height only (one resize call to 1000 x 954), and after capture restores the
window to exactly 1000 x 700. -/
theorem c7_amended :
    (CaptureBrowser env7 s7).resizedWidth = false ∧
    (CaptureBrowser env7 s7).resizedHeight = true ∧
    (CaptureBrowser env7 s7).targetViewHeight = 917 ∧
    (CaptureBrowser env7 s7).setSizeCalls = [(1000, 954), (1000, 700)] ∧
    (CaptureBrowser env7 s7).state = s7 := by decide

/-- C9 counterexample: on the worked-scenario geometry the capture target
passed to CaptureView is 984 x 900 but the check size is (967, 629) =
(pre-resize client - 17), and 629 differs from target-height - 17 = 883. -/
theorem c9_counterexample :
    (CaptureBrowserCore env7 s7).captureArgs = (984, 900, 967, 629) ∧
    ¬((967 : Int) = 984 - 17 ∧ (629 : Int) = 900 - 17) := by decide

/-- C9 (amended): the uniform-colour heuristic samples a sub-rectangle sized to
(pre-resize client width - 17, pre-resize client height - 17) — not the capture
target size - 17 — clipped to the buffer's actual dimensions, and reports
uniform exactly when every pixel in that region equals the first pixel of the
buffer. -/
theorem c9_amended :
    (∀ (env : CEnv) (s : WinState),
      (CaptureBrowserCore env s).captureArgs.2.2 = (env.clientWidth - 17, env.clientHeight - 17)) ∧
    (∀ (image : Image) (cw ch : Int),
      IsImageSameColour image cw ch = true ↔ UniformInRegion image cw ch) := by
  constructor
  · intro env s
    rfl
  · intro image cw ch
    simp [IsImageSameColour, UniformInRegion, decide_eq_true_eq]

/-- C4 counterexample: with viewport width 70000, client width 70000 and scroll
width 60000, no growth is needed, so the computed target view width is 70000
and exceeds the 65534 ceiling untruncated — the clamp only runs inside the
grow branch. -/
theorem c4_counterexample :
    (CaptureBrowserCore env4 s7).targetViewWidth = 70000 ∧
    ¬((CaptureBrowserCore env4 s7).targetViewWidth ≤ SIZE_LIMIT) := by decide

/-- C4 (amended): provided each viewport dimension is itself at most 65534,
every computed target view dimension is at most 65534; a naturally computed
value above the ceiling is truncated to 65534 (for the height, before the
2-pixel scrollbar compensation), never rejected. -/
theorem c4_ceiling (env : CEnv) (s : WinState)
    (hvw : env.viewWidth ≤ SIZE_LIMIT) (hvh : env.viewHeight ≤ SIZE_LIMIT) :
    (CaptureBrowserCore env s).targetViewWidth ≤ SIZE_LIMIT ∧
    (CaptureBrowserCore env s).targetViewHeight ≤ SIZE_LIMIT ∧
    (SIZE_LIMIT < naturalTargetView env.viewWidth env.scrollWidth
        (scrollbarDim env.viewWidth env.clientWidth) →
      (CaptureBrowserCore env s).targetViewWidth = SIZE_LIMIT) ∧
    (SIZE_LIMIT < naturalTargetView env.viewHeight env.scrollHeight
        (scrollbarDim env.viewHeight env.clientHeight) →
      (CaptureBrowserCore env s).targetViewHeight =
        SIZE_LIMIT - (if 0 < scrollbarDim env.viewWidth env.clientWidth then 2 else 0)) := by
  have hw : (CaptureBrowserCore env s).targetViewWidth =
      targetViewWidthFinal env.viewWidth env.scrollWidth env.clientWidth := rfl
  have hh : (CaptureBrowserCore env s).targetViewHeight =
      targetViewHeightFinal env.viewHeight env.scrollHeight env.clientHeight
        (scrollbarDim env.viewWidth env.clientWidth) := rfl
  rw [hw, hh]
  simp only [targetViewWidthFinal, targetViewHeightFinal, naturalTargetView, scrollbarDim,
    clampLimit, SIZE_LIMIT, max_def] at *
  refine ⟨?_, ?_, ?_, ?_⟩ <;> split_ifs <;> omega

/-- C4 witness: the amended ceiling claim instantiated on the worked-scenario
geometry, whose viewport dimensions are below the ceiling. -/
theorem c4_witness :
    (CaptureBrowserCore env7 s7).targetViewWidth ≤ SIZE_LIMIT ∧
    (CaptureBrowserCore env7 s7).targetViewHeight ≤ SIZE_LIMIT ∧
    (SIZE_LIMIT < naturalTargetView env7.viewWidth env7.scrollWidth
        (scrollbarDim env7.viewWidth env7.clientWidth) →
      (CaptureBrowserCore env7 s7).targetViewWidth = SIZE_LIMIT) ∧
    (SIZE_LIMIT < naturalTargetView env7.viewHeight env7.scrollHeight
        (scrollbarDim env7.viewHeight env7.clientHeight) →
      (CaptureBrowserCore env7 s7).targetViewHeight =
        SIZE_LIMIT - (if 0 < scrollbarDim env7.viewWidth env7.clientWidth then 2 else 0)) :=
  c4_ceiling env7 s7 (by decide) (by decide)

/-- C5 counterexample: with a vertical scrollbar present (viewWidth = 100,
clientWidth = 83, so scrollbarWidth = 17 > 0) but no height growth needed
(viewHeight = 500, scrollHeight = 300, clientHeight = 500), the final target
view height is the naturally computed 500, not the naturally computed height
minus 2: the subtraction only happens inside the height grow branch. -/
theorem c5_counterexample :
    0 < scrollbarDim env5.viewWidth env5.clientWidth ∧
    (CaptureBrowserCore env5 s7).targetViewHeight = 500 ∧
    (CaptureBrowserCore env5 s7).targetViewHeight ≠
      clampLimit (naturalTargetView env5.viewHeight env5.scrollHeight
        (scrollbarDim env5.viewHeight env5.clientHeight)) - 2 := by decide

/-- C5 (amended): whenever a vertical scrollbar is present (scrollbarWidth > 0)
AND the naturally computed target view height exceeds the viewport height (the
height grow branch is taken), the final target view height equals the naturally
computed height, after the ceiling clamp, minus 2. -/
theorem c5_compensation (viewHeight scrollHeight clientHeight scrollbarWidth : Int)
    (hsb : 0 < scrollbarWidth)
    (hgrow : viewHeight <
      naturalTargetView viewHeight scrollHeight (scrollbarDim viewHeight clientHeight)) :
    targetViewHeightFinal viewHeight scrollHeight clientHeight scrollbarWidth =
      clampLimit (naturalTargetView viewHeight scrollHeight
        (scrollbarDim viewHeight clientHeight)) - 2 := by
  rw [targetViewHeightFinal]
  rw [if_pos hgrow, if_pos hsb]

/-- C5 witness: the amended compensation claim instantiated at viewport height
663, scroll height 900, client height 646 and scrollbar width 17: the final
target view height is max(663, 900 + 17) - 2 = 915. -/
theorem c5_witness :
    targetViewHeightFinal 663 900 646 17 =
      clampLimit (naturalTargetView 663 900 (scrollbarDim 663 646)) - 2 :=
  c5_compensation 663 900 646 17 (by decide) (by decide)

/-- C6 counterexample: geometry with scroll width 100 ≤ viewport width 100 and
scroll height 50 ≤ viewport height 100, yet a width resize is performed:
clientWidth = 83 gives scrollbarWidth = 17 and targetViewWidth =
max(100, 100 + 17) = 117 > 100. -/
theorem c6_counterexample :
    env6.scrollWidth ≤ env6.viewWidth ∧
    env6.scrollHeight ≤ env6.viewHeight ∧
    (CaptureBrowserCore env6 s7).resizedWidth = true ∧
    (CaptureBrowserCore env6 s7).setSizeCalls ≠ [] := by decide

/-- C6 (amended): for every input geometry in which scroll width plus scrollbar
width is at most the viewport width and scroll height plus scrollbar height is
at most the viewport height, no resize is performed on either axis (no
SetWindowSize call, no demaximize), the window state is untouched, and no
2-pixel scrollbar compensation is applied to the target view height (it stays
at the viewport height). -/
theorem c6_noop (env : CEnv) (s : WinState)
    (hw : env.scrollWidth + scrollbarDim env.viewWidth env.clientWidth ≤ env.viewWidth)
    (hh : env.scrollHeight + scrollbarDim env.viewHeight env.clientHeight ≤ env.viewHeight) :
    (CaptureBrowserCore env s).resizedWidth = false ∧
    (CaptureBrowserCore env s).resizedHeight = false ∧
    (CaptureBrowserCore env s).setSizeCalls = [] ∧
    (CaptureBrowserCore env s).demaximized = false ∧
    (CaptureBrowserCore env s).state = s ∧
    (CaptureBrowserCore env s).targetViewHeight = env.viewHeight := by
  have hgw : ¬(naturalTargetView env.viewWidth env.scrollWidth
      (scrollbarDim env.viewWidth env.clientWidth) > env.viewWidth) := by
    simp only [naturalTargetView, max_def]
    split_ifs <;> omega
  have hgh : ¬(naturalTargetView env.viewHeight env.scrollHeight
      (scrollbarDim env.viewHeight env.clientHeight) > env.viewHeight) := by
    simp only [naturalTargetView, max_def]
    split_ifs <;> omega
  have hth : targetViewHeightFinal env.viewHeight env.scrollHeight env.clientHeight
      (scrollbarDim env.viewWidth env.clientWidth) = env.viewHeight := by
    rw [targetViewHeightFinal, if_neg hgh]
    simp only [naturalTargetView, max_def]
    split_ifs <;> omega
  simp [CaptureBrowserCore, hgw, hgh, hth]

/-- C6 witness: the amended no-op claim instantiated on geometry with
scrollWidth + scrollbarWidth = 83 + 17 ≤ 100 and scrollHeight +
scrollbarHeight = 80 + 0 ≤ 100. -/
theorem c6_witness :
    (CaptureBrowserCore env6b s7).resizedWidth = false ∧
    (CaptureBrowserCore env6b s7).resizedHeight = false ∧
    (CaptureBrowserCore env6b s7).setSizeCalls = [] ∧
    (CaptureBrowserCore env6b s7).demaximized = false ∧
    (CaptureBrowserCore env6b s7).state = s7 ∧
    (CaptureBrowserCore env6b s7).targetViewHeight = env6b.viewHeight :=
  c6_noop env6b s7 (by decide) (by decide)

/-- C8: if, after the optional post-resize re-sampling, the final client width
or client height is below 1 pixel, the resolver substitutes the target view
size (both width and height) for the client size as the capture target passed
to CaptureView. -/
theorem c8_degenerate (env : CEnv) (s : WinState)
    (hdeg : (CaptureBrowserCore env s).clientBeforeFloor.1 < 1 ∨
      (CaptureBrowserCore env s).clientBeforeFloor.2 < 1) :
    (CaptureBrowserCore env s).captureArgs.1 = (CaptureBrowserCore env s).targetViewWidth ∧
    (CaptureBrowserCore env s).captureArgs.2.1 = (CaptureBrowserCore env s).targetViewHeight := by
  dsimp only [CaptureBrowserCore] at hdeg ⊢
  exact ⟨if_pos hdeg, if_pos hdeg⟩

/-- C8 witness: geometry with client width 0 (no resize needed): the capture
target becomes the target view size 100 x 100. -/
theorem c8_witness :
    (CaptureBrowserCore env8 s7).captureArgs.1 = (CaptureBrowserCore env8 s7).targetViewWidth ∧
    (CaptureBrowserCore env8 s7).captureArgs.2.1 = (CaptureBrowserCore env8 s7).targetViewHeight :=
  c8_degenerate env8 s7 (by decide)

/-- The capture body restores the window state it started from, provided a
maximized window's recorded outer size is the size re-maximizing yields. -/
lemma core_state_restores (env : CEnv) (w h : Int) (m : Bool)
    (hmax : m = true → w = env.maximizedSize.1 ∧ h = env.maximizedSize.2) :
    (CaptureBrowserCore env ⟨w, h, m⟩).state = ⟨w, h, m⟩ := by
  by_cases hgw : naturalTargetView env.viewWidth env.scrollWidth
      (scrollbarDim env.viewWidth env.clientWidth) > env.viewWidth <;>
  by_cases hgh : naturalTargetView env.viewHeight env.scrollHeight
      (scrollbarDim env.viewHeight env.clientHeight) > env.viewHeight <;>
  cases m <;>
  simp_all [CaptureBrowserCore, SetWindowSize, showNoActivate, showMaximize] <;>
  split_ifs <;> first | rfl | omega

/-- C1: for every capture run — whatever combination of width/height resizes is
applied and whether the paint capture succeeds or fails — after CaptureBrowser
completes, the top-level window's outer size and maximized flag equal the
values read immediately before capture began, and the restoration step runs
whenever any resize occurred.  The hypothesis records the OS invariant that a
window reporting maximized has the outer size that re-maximizing restores. -/
theorem c1_restoration (env : CEnv) (s : WinState)
    (hmax : s.maximized = true → s.width = env.maximizedSize.1 ∧ s.height = env.maximizedSize.2) :
    (CaptureBrowser env s).state = s ∧
    (((CaptureBrowser env s).resizedWidth || (CaptureBrowser env s).resizedHeight) = true →
      (CaptureBrowser env s).restored = true) := by
  obtain ⟨w, h, m⟩ := s
  rw [CaptureBrowser_cases]
  by_cases hok : (env.handlesOk && env.documentOk && env.canvasOk &&
      env.windowSizeOk && env.viewSizeOk) = true
  · rw [if_pos hok]
    exact ⟨core_state_restores env w h m hmax, fun hre => hre⟩
  · rw [if_neg hok]
    exact ⟨rfl, fun hre => hre⟩

/-- C1 witness: on the worked scenario (height resize performed, paint
succeeds), the window comes back to exactly 1000 x 700 unmaximized and the
restore step ran. -/
theorem c1_witness :
    (CaptureBrowser env7 s7).state = s7 ∧
    (((CaptureBrowser env7 s7).resizedWidth || (CaptureBrowser env7 s7).resizedHeight) = true →
      (CaptureBrowser env7 s7).restored = true) :=
  c1_restoration env7 s7 (by decide)

/-- A rejected paint attempt with a successful PrintWindow must have produced a
uniform sampled region. -/
lemma goodAttempt_same (env : PaintEnv) (cw ch : Int) (i : Nat)
    (h : ¬ goodAttempt env cw ch i) (hp : env.printSuccess i = true) :
    IsImageSameColour (env.painted i) cw ch = true := by
  by_contra hs
  exact h ⟨hp, by simpa using hs⟩

/-- C3: CaptureView returns NULL if and only if the initial 32-bit bitmap
allocation fails; it performs at most 3 paint attempts; it accepts the first
attempt where PrintWindow succeeds and the sampled region is not uniform; and
if all 3 attempts are exhausted (paint failures or uniform frames) it still
returns the buffer as most recently painted, without re-validating it. -/
theorem c3_capture_view (env : PaintEnv) (w h cw ch : Int) :
    ((CaptureView env w h cw ch).1 = none ↔ env.createOk = false) ∧
    (CaptureView env w h cw ch).2 ≤ 3 ∧
    (env.createOk = true →
      ∀ i, 1 ≤ i → i ≤ 3 → goodAttempt env cw ch i →
        (∀ j, 1 ≤ j → j < i → ¬ goodAttempt env cw ch j) →
        CaptureView env w h cw ch = (some (env.painted i), i)) ∧
    (env.createOk = true →
      (∀ j, 1 ≤ j → j ≤ 3 → ¬ goodAttempt env cw ch j) →
      CaptureView env w h cw ch = (some (lastPaintedBuffer env), 3)) := by
  refine ⟨?_, ?_, ?_, ?_⟩
  · cases hc : env.createOk <;> simp [CaptureView, hc]
  · cases hc : env.createOk
    · simp [CaptureView, hc]
    · have hb := captureViewLoop_snd_le env cw ch 3 1 env.freshBuffer
      simp only [CaptureView, hc]
      simpa using hb
  · intro hc i h1 h3 hgood hmin
    interval_cases i
    · obtain ⟨hp, hs⟩ := hgood
      simp [CaptureView, hc, captureViewLoop_succ, hp, hs]
    · obtain ⟨hp2, hs2⟩ := hgood
      have hn1 := hmin 1 (by omega) (by omega)
      rcases Bool.eq_false_or_eq_true (env.printSuccess 1) with hp1 | hp1 <;>
        simp [CaptureView, hc, captureViewLoop_succ, hp1, hp2, hs2,
          goodAttempt_same env cw ch 1 hn1]
    · obtain ⟨hp3, hs3⟩ := hgood
      have hn1 := hmin 1 (by omega) (by omega)
      have hn2 := hmin 2 (by omega) (by omega)
      rcases Bool.eq_false_or_eq_true (env.printSuccess 1) with hp1 | hp1 <;>
        rcases Bool.eq_false_or_eq_true (env.printSuccess 2) with hp2 | hp2 <;>
        simp [CaptureView, hc, captureViewLoop_succ, hp1, hp2, hp3, hs3,
          goodAttempt_same env cw ch 1 hn1, goodAttempt_same env cw ch 2 hn2]
  · intro hc hall
    have hn1 := hall 1 (by omega) (by omega)
    have hn2 := hall 2 (by omega) (by omega)
    have hn3 := hall 3 (by omega) (by omega)
    rcases Bool.eq_false_or_eq_true (env.printSuccess 1) with hp1 | hp1 <;>
      rcases Bool.eq_false_or_eq_true (env.printSuccess 2) with hp2 | hp2 <;>
      rcases Bool.eq_false_or_eq_true (env.printSuccess 3) with hp3 | hp3 <;>
      simp [CaptureView, hc, captureViewLoop_succ, captureViewLoop_zero, lastPaintedBuffer,
        hp1, hp2, hp3, goodAttempt_same env cw ch 1 hn1, goodAttempt_same env cw ch 2 hn2,
        goodAttempt_same env cw ch 3 hn3]

/-- C3 witness: with allocation succeeding and the first paint succeeding on a
non-uniform frame, CaptureView returns that buffer at attempt 1. -/
theorem c3_witness : CaptureView paintAlwaysGood 5 5 2 2 = (some imgTwoTone, 1) :=
  (c3_capture_view paintAlwaysGood 5 5 2 2).2.2.1 rfl 1 (by omega) (by omega)
    ⟨rfl, by decide⟩ (fun j h1 h2 => absurd h2 (by omega))

/-- A non-positive check width or height empties the comparison region, so the
uniform-colour check vacuously reports uniform. -/
lemma IsImageSameColour_of_nonpos (image : Image) (cw ch : Int) (h : cw ≤ 0 ∨ ch ≤ 0) :
    IsImageSameColour image cw ch = true := by
  simp only [IsImageSameColour, decide_eq_true_eq]
  intro y hy x hx
  rcases h with h | h
  · have h1 : min cw (image.width : Int) ≤ 0 := le_trans (min_le_left _ _) h
    rw [Int.toNat_of_nonpos h1] at hx
    exact absurd hx (Nat.not_lt_zero x)
  · have h1 : min ch (image.height : Int) ≤ 0 := le_trans (min_le_left _ _) h
    rw [Int.toNat_of_nonpos h1] at hy
    exact absurd hy (Nat.not_lt_zero y)

/-- When every buffer is classified uniform, the paint loop never accepts: all
3 attempts run and the buffer as last painted is returned. -/
lemma CaptureView_all_uniform (env : PaintEnv) (w h cw ch : Int)
    (hc : env.createOk = true) (hu : ∀ img, IsImageSameColour img cw ch = true) :
    CaptureView env w h cw ch = (some (lastPaintedBuffer env), 3) := by
  rcases Bool.eq_false_or_eq_true (env.printSuccess 1) with hp1 | hp1 <;>
    rcases Bool.eq_false_or_eq_true (env.printSuccess 2) with hp2 | hp2 <;>
    rcases Bool.eq_false_or_eq_true (env.printSuccess 3) with hp3 | hp3 <;>
    simp [CaptureView, hc, captureViewLoop_succ, captureViewLoop_zero, lastPaintedBuffer,
      hp1, hp2, hp3, hu]

/-- C10: for every 32-bpp image, a non-positive check width or height makes
IsImageSameColour return true regardless of pixel contents; consequently, when
the pre-resize client width or height is at most 17 (check size at most 0),
every successful paint is classified uniform, all 3 paint attempts are
consumed, and the buffer as last painted is accepted. -/
theorem c10_vacuous_uniform :
    (∀ (image : Image) (cw ch : Int), cw ≤ 0 ∨ ch ≤ 0 →
      IsImageSameColour image cw ch = true) ∧
    (∀ (env : CEnv) (s : WinState), env.paint.createOk = true →
      env.clientWidth ≤ 17 ∨ env.clientHeight ≤ 17 →
      (CaptureBrowserCore env s).attempts = 3 ∧
      (CaptureBrowserCore env s).image = some (lastPaintedBuffer env.paint)) := by
  refine ⟨IsImageSameColour_of_nonpos, ?_⟩
  intro env s hc hcl
  have hchk : env.clientWidth - 17 ≤ 0 ∨ env.clientHeight - 17 ≤ 0 := by omega
  have hcv := CaptureView_all_uniform env.paint
    ((CaptureBrowserCore env s).captureArgs.1) ((CaptureBrowserCore env s).captureArgs.2.1)
    (env.clientWidth - 17) (env.clientHeight - 17) hc
    (fun img => IsImageSameColour_of_nonpos img _ _ hchk)
  have hAtt : (CaptureBrowserCore env s).attempts =
      (CaptureView env.paint ((CaptureBrowserCore env s).captureArgs.1)
        ((CaptureBrowserCore env s).captureArgs.2.1)
        (env.clientWidth - 17) (env.clientHeight - 17)).2 := rfl
  have hImg : (CaptureBrowserCore env s).image =
      (CaptureView env.paint ((CaptureBrowserCore env s).captureArgs.1)
        ((CaptureBrowserCore env s).captureArgs.2.1)
        (env.clientWidth - 17) (env.clientHeight - 17)).1 := rfl
  rw [hcv] at hAtt hImg
  exact ⟨hAtt, hImg⟩

/-- C10 witness: with pre-resize client width 10 ≤ 17 and all paints
succeeding, all 3 attempts are consumed and the last painted buffer is kept. -/
theorem c10_witness :
    (CaptureBrowserCore env10 s7).attempts = 3 ∧
    (CaptureBrowserCore env10 s7).image = some (lastPaintedBuffer env10.paint) :=
  c10_vacuous_uniform.2 env10 s7 rfl (Or.inl (by decide))

/-- C2: whenever the current browser is obtained, ExecuteInternal always sets a
successful response: the empty string when both outer CaptureBrowser attempts
fail or when PNG/base64 encoding fails, and the (non-empty) base64 text on full
success; the only error response is the inability to get the current browser. -/
theorem c2_degrade (env : ExecEnv) (s : WinState) (henc : env.encoded ≠ "") :
    (env.browserStatus ≠ WD_SUCCESS →
      (ExecuteInternal env s).1 = Response.error env.browserStatus "Unable to get browser") ∧
    (env.browserStatus = WD_SUCCESS →
      (∃ p, (ExecuteInternal env s).1 = Response.success p) ∧
      ((CaptureBrowser (env.cenv 1) s).ok = false →
        (CaptureBrowser (env.cenv 2) (CaptureBrowser (env.cenv 1) s).state).ok = false →
        (ExecuteInternal env s).1 = Response.success "") ∧
      (env.encodeOk = false →
        (ExecuteInternal env s).1 = Response.success "") ∧
      (env.encodeOk = true →
        ((CaptureBrowser (env.cenv 1) s).ok = true ∨
          (CaptureBrowser (env.cenv 2) (CaptureBrowser (env.cenv 1) s).state).ok = true) →
        (ExecuteInternal env s).1 = Response.success env.encoded ∧ env.encoded ≠ "")) := by
  by_cases hb : env.browserStatus = WD_SUCCESS
  · refine ⟨fun hnb => absurd hb hnb, fun _ => ?_⟩
    rcases Bool.eq_false_or_eq_true (CaptureBrowser (env.cenv 1) s).ok with h1 | h1 <;>
      rcases Bool.eq_false_or_eq_true
        (CaptureBrowser (env.cenv 2) (CaptureBrowser (env.cenv 1) s).state).ok with h2 | h2 <;>
      rcases Bool.eq_false_or_eq_true env.encodeOk with he | he <;>
      simp [ExecuteInternal, hb, h1, h2, he, henc]
  · refine ⟨fun _ => by simp [ExecuteInternal, hb], fun hb2 => absurd hb2 hb⟩

/-- C2 witness: browser obtained, both capture attempts fail (unreachable
window handles): the response is a successful empty string. -/
theorem c2_witness : (ExecuteInternal execEnvBothFail s7).1 = Response.success "" :=
  ((c2_degrade execEnvBothFail s7 (by decide)).2 rfl).2.1 (by decide) (by decide)

end webdriver
